import Mathlib

/-!
# qdsp: the scatter-plot update engine

A shallow embedding of the two variants of `qdsp.c`:

* `Qdsp.V1` is `src/qdsp.c` (single vertex buffer, CPU-side `xy2vert`);
* `Qdsp.V2` is `src/src/qdsp.c` (split x/y/colour buffers, overlay, pause).

Conventions of the embedding.

* `double` and `float` values are exact rationals; a quotient whose divisor is
  zero is not a finite number and is `none`.  Narrowing to `float` is exact.
* The monotonic clock is an input of every call (`newTime`).
* The windowing library is an environment: a list of event batches, one batch
  handed over at each `glfwWaitEvents` / `glfwPollEvents`.  A wait with no batch
  left never returns, which is `none`.
* Calls into OpenGL / GLFW are recorded, in order, in a list of `GLCall`.
* Loop indices and sizes are mathematical integers (no `int` wrap-around);
  allocation always succeeds.
-/

namespace Qdsp

/-! ## Shared data -/

/-- The C `struct timespec`. -/
structure Timespec where
  tv_sec : Int
  tv_nsec : Int
deriving DecidableEq, Repr

/-- Milliseconds of a clock reading:
`(double)t.tv_sec*1.0e3 + t.tv_nsec*1.0e-6`. -/
def Timespec.ms (t : Timespec) : ℚ :=
  (t.tv_sec : ℚ) * 1000 + (t.tv_nsec : ℚ) * (1 / 1000000)

/-- Modelled from the spec: the enum `QDSPtype` of `qdsp.h` (absent), the
three numeric representations of a sample. -/
inductive QDSPtype where
  | QDSP_INT
  | QDSP_FLOAT
  | QDSP_DOUBLE
deriving DecidableEq, Repr

/-- The memory behind a `void *` sample pointer, as it reads under each of the
three element types. -/
structure Samples where
  asInt : Nat → Int
  asFloat : Nat → ℚ
  asDouble : Nat → ℚ

/-- A `float` or `double` cell: `some q` is the finite value `q`, `none` is no
finite value (infinity, NaN, or memory not yet written). -/
abbrev FVal := Option ℚ

/-- Division of `double`s. -/
def fdiv (a b : ℚ) : FVal := if b = 0 then none else some (a / b)

/-- Subtraction of a finite constant from a `double` result. -/
def fsub (a : FVal) (b : ℚ) : FVal := a.map (fun q => q - b)

/-- Keys and actions of GLFW used by the key handler (`GLFW/glfw3.h`). -/
def GLFW_KEY_ESCAPE : Int := 256

def GLFW_KEY_Q : Int := 81

def GLFW_KEY_P : Int := 80

def GLFW_KEY_H : Int := 72

def GLFW_RELEASE : Int := 0

def GLFW_PRESS : Int := 1

def GLFW_REPEAT : Int := 2

/-- An input event delivered by the windowing library while it pumps events. -/
inductive Event where
  /-- A key event, with the arguments of the key callback. -/
  | key (key code action mods : Int)
  /-- The user asked the window manager to close the window. -/
  | close
  /-- The framebuffer was resized. -/
  | framebufferSize (width height : Int)
deriving DecidableEq, Repr

/-- Uniform variables of the two shader programs. -/
inductive Uniform where
  | xMin | xMax | yMin | yMax | defaultColor | useCustom | pixDims | imgDims
deriving DecidableEq, Repr

/-- Buffer objects and vertex arrays named in the calls. -/
inductive GLObj where
  | vertBufferObj | vertBufferObjX | vertBufferObjY | vertBufferObjCol
  | vertArrayObj | overVAO | overTex
deriving DecidableEq, Repr

/-- The two shader programs. -/
inductive Program where
  | shaderProgram | overShaderProgram
deriving DecidableEq, Repr

/-- The data pointer of a `glBufferData` call. -/
inductive BufData where
  | null
  | floats (vals : List FVal)
  | doubles (vals : List ℚ)
  | ints (vals : List Int)
deriving DecidableEq, Repr

/-- Primitive kinds of `glDrawArrays`. -/
inductive DrawMode where
  | GL_POINTS | GL_TRIANGLES
deriving DecidableEq, Repr

/-- The OpenGL / GLFW calls issued by the modelled functions. -/
inductive GLCall where
  | glfwTerminate
  | glfwSwapBuffers
  | glUseProgram (p : Program)
  | glBindBuffer (b : GLObj)
  | glBufferData (bytes : Int) (data : BufData)
  | glUniform1f (p : Program) (u : Uniform) (v : ℚ)
  | glUniform1i (p : Program) (u : Uniform) (v : Int)
  | glUniform2f (p : Program) (u : Uniform) (v0 v1 : Int)
  | glClearColor (r g b a : ℚ)
  | glClear
  | glBindVertexArray (a : GLObj)
  | glBindTexture (t : GLObj)
  | glDrawArrays (mode : DrawMode) (first count : Int)
  | glViewport (x y width height : Int)
deriving DecidableEq, Repr

/-- The environment of a run: the event batches still to be delivered. -/
abbrev Env := List (List Event)

/-! ## Variant 1: `src/qdsp.c` -/

namespace V1

/-- Modelled from the spec: the struct `QDSPplot` of `qdsp.h` (absent), with the
fields `src/qdsp.c` reads and writes.  `windowShouldClose` is the close flag of
`plot->window`. -/
structure QDSPplot where
  windowShouldClose : Bool
  xMin : ℚ
  xMax : ℚ
  yMin : ℚ
  yMax : ℚ
  lastTime : Timespec
deriving DecidableEq

/-- The sample `i` of a `void *` array, widened to `double` (the `switch`). -/
def readSample (type : QDSPtype) (p : Samples) (i : Nat) : ℚ :=
  match type with
  | QDSPtype.QDSP_INT => (p.asInt i : ℚ)
  | QDSPtype.QDSP_FLOAT => p.asFloat i
  | QDSPtype.QDSP_DOUBLE => p.asDouble i

/-- A store into the `float` buffer `vertices`. -/
def store (vertices : Nat → FVal) (k : Nat) (v : FVal) : Nat → FVal :=
  fun j => if j = k then v else vertices j

/-- One iteration of the loop of `xy2vert`. -/
def xy2vertIter (plot : QDSPplot) (x y : Samples) (type : QDSPtype)
    (vertices : Nat → FVal) (i : Nat) : Nat → FVal :=
  let xval := readSample type x i
  let yval := readSample type y i
  let v0 := store vertices (3 * i + 0)
    (fsub (fdiv (2 * (xval - plot.xMin)) (plot.xMax - plot.xMin)) 1)
  let v1 := store v0 (3 * i + 1)
    (fsub (fdiv (2 * (yval - plot.yMin)) (plot.yMax - plot.yMin)) 1)
  store v1 (3 * i + 2) (some 0)

/-- The iterations of `xy2vert` run in the order `sched`. -/
def xy2vertSched (plot : QDSPplot) (x y : Samples) (type : QDSPtype)
    (sched : List Nat) (vertices : Nat → FVal) : Nat → FVal :=
  sched.foldl (xy2vertIter plot x y type) vertices

/-- The function `xy2vert`: the iterations `0 ≤ i < numVerts`, here in
ascending order. -/
def xy2vert (plot : QDSPplot) (x y : Samples) (vertices : Nat → FVal)
    (numVerts : Int) (type : QDSPtype) : Nat → FVal :=
  xy2vertSched plot x y type (List.range numVerts.toNat) vertices

/-- The function `resizeCallback`. -/
def resizeCallback (width height : Int) : List GLCall :=
  [GLCall.glViewport 0 0 width height]

/-- What the windowing library does with one event: a close request sets the
close flag of the window, a resize runs `resizeCallback`; no key callback is
installed in this variant. -/
def dispatch (plot : QDSPplot) (e : Event) : QDSPplot × List GLCall :=
  match e with
  | Event.key _ _ _ _ => (plot, [])
  | Event.close => ({ plot with windowShouldClose := true }, [])
  | Event.framebufferSize w h => (plot, resizeCallback w h)

/-- The events of one batch, dispatched in order. -/
def pump (plot : QDSPplot) (batch : List Event) : QDSPplot × List GLCall :=
  batch.foldl (fun acc e => ((dispatch acc.1 e).1, acc.2 ++ (dispatch acc.1 e).2)) (plot, [])

/-- The call `glfwPollEvents`: the pending batch, if any, is dispatched. -/
def glfwPollEvents (plot : QDSPplot) (env : Env) : QDSPplot × List GLCall × Env :=
  match env with
  | [] => (plot, [], [])
  | b :: rest => ((pump plot b).1, (pump plot b).2, rest)

/-- What a call of `qdspUpdate` leaves behind: the plot, the returned `int`, the
OpenGL / GLFW calls it made, and the events not yet delivered. -/
structure Outcome where
  plot : QDSPplot
  ret : Int
  gl : List GLCall
  env : Env

/-- The function `qdspUpdate` of `src/qdsp.c`; `newTime` is the value read by
`clock_gettime`. -/
def qdspUpdate (plot : QDSPplot) (newTime : Timespec) (x y : Samples)
    (numVerts : Int) (type : QDSPtype) (env : Env) : Outcome :=
  let lastTime := plot.lastTime
  let timeDiff := newTime.ms - lastTime.ms
  if timeDiff ≥ 16 then
    let plot1 := { plot with lastTime := newTime }
    if plot1.windowShouldClose then
      ⟨plot1, 0, [GLCall.glfwTerminate], env⟩
    else
      let vertices := xy2vert plot1 x y (fun _ => none) numVerts type
      let polled := glfwPollEvents plot1 env
      ⟨polled.1, 1,
        [GLCall.glBufferData (3 * numVerts * 4)
            (BufData.floats ((List.range (3 * numVerts).toNat).map vertices)),
          GLCall.glClearColor 0 0 0 1,
          GLCall.glClear,
          GLCall.glUseProgram Program.shaderProgram,
          GLCall.glBindVertexArray GLObj.vertArrayObj,
          GLCall.glDrawArrays DrawMode.GL_POINTS 0 numVerts,
          GLCall.glfwSwapBuffers] ++ polled.2.1,
        polled.2.2⟩
  else
    ⟨plot, 2, [], env⟩

/-- The arguments of one call of `qdspUpdate`, with the clock reading taken. -/
structure Call where
  newTime : Timespec
  x : Samples
  y : Samples
  numVerts : Int
  type : QDSPtype

/-- A sequence of calls of `qdspUpdate` on one plot: the clock reading and the
returned value of each call, in order. -/
def run : List Call → QDSPplot → Env → List (Timespec × Int)
  | [], _, _ => []
  | c :: cs, plot, env =>
    (c.newTime, (qdspUpdate plot c.newTime c.x c.y c.numVerts c.type env).ret) ::
      run cs (qdspUpdate plot c.newTime c.x c.y c.numVerts c.type env).plot
        (qdspUpdate plot c.newTime c.x c.y c.numVerts c.type env).env

end V1

/-! ## Variant 2: `src/src/qdsp.c` -/

namespace V2

/-- Modelled from the spec: the struct `QDSPplot` of `qdsp.h` (absent), with the
fields `src/src/qdsp.c` reads and writes; the flags are booleans.
`windowShouldClose` is the close flag of `plot->window`.  The bounds live in
the uniforms of the point program, not in this struct. -/
structure QDSPplot where
  windowShouldClose : Bool
  paused : Bool
  overlay : Bool
  lastTime : Timespec
deriving DecidableEq

/-- The function `resizeCallback`. -/
def resizeCallback (width height : Int) : List GLCall :=
  [GLCall.glUseProgram Program.overShaderProgram,
    GLCall.glUniform2f Program.overShaderProgram Uniform.pixDims width height,
    GLCall.glViewport 0 0 width height]

/-- The function `keyCallback`; `glfwSetWindowShouldClose(window, 1)` sets the
close flag. -/
def keyCallback (plot : QDSPplot) (key _code action _mods : Int) : QDSPplot :=
  let plot1 :=
    if (key = GLFW_KEY_ESCAPE ∨ key = GLFW_KEY_Q) ∧ action = GLFW_PRESS then
      { plot with windowShouldClose := true, paused := false }
    else plot
  let plot2 :=
    if key = GLFW_KEY_P ∧ action = GLFW_PRESS then
      { plot1 with paused := !plot1.paused }
    else plot1
  if key = GLFW_KEY_H ∧ action = GLFW_PRESS then
    { plot2 with overlay := !plot2.overlay }
  else plot2

/-- What the windowing library does with one event: a key event runs
`keyCallback`, a close request sets the close flag of the window, a resize runs
`resizeCallback`. -/
def dispatch (plot : QDSPplot) (e : Event) : QDSPplot × List GLCall :=
  match e with
  | Event.key k c a m => (keyCallback plot k c a m, [])
  | Event.close => ({ plot with windowShouldClose := true }, [])
  | Event.framebufferSize w h => (plot, resizeCallback w h)

/-- The events of one batch, dispatched in order. -/
def pump (plot : QDSPplot) (batch : List Event) : QDSPplot × List GLCall :=
  batch.foldl (fun acc e => ((dispatch acc.1 e).1, acc.2 ++ (dispatch acc.1 e).2)) (plot, [])

/-- The call `glfwPollEvents`: the pending batch, if any, is dispatched. -/
def glfwPollEvents (plot : QDSPplot) (env : Env) : QDSPplot × List GLCall × Env :=
  match env with
  | [] => (plot, [], [])
  | b :: rest => ((pump plot b).1, (pump plot b).2, rest)

/-- The loop `while (plot->paused) glfwWaitEvents();`.  Each round takes the
next batch of the environment; with the plot paused and no batch left the wait
never ends (`none`).  `gl` collects the calls made by the callbacks. -/
def pauseLoop : Env → QDSPplot → List GLCall → Option (QDSPplot × List GLCall × Env)
  | [], plot, gl => if plot.paused then none else some (plot, gl, [])
  | b :: rest, plot, gl =>
    if plot.paused then pauseLoop rest (pump plot b).1 (gl ++ (pump plot b).2)
    else some (plot, gl, b :: rest)

/-- What a call of `qdspUpdate` leaves behind: the plot, the returned `int`, the
OpenGL / GLFW calls it made, and the events not yet delivered. -/
structure Outcome where
  plot : QDSPplot
  ret : Int
  gl : List GLCall
  env : Env

/-- The calls of `qdspUpdate` from `glUseProgram` to `glfwSwapBuffers`; a null
`color` is `none`. -/
def drawCalls (plot : QDSPplot) (x y : Nat → ℚ) (color : Option (Nat → Int))
    (numVerts : Int) : List GLCall :=
  [GLCall.glUseProgram Program.shaderProgram,
    GLCall.glBindBuffer GLObj.vertBufferObjX,
    GLCall.glBufferData (numVerts * 8) (BufData.doubles ((List.range numVerts.toNat).map x)),
    GLCall.glBindBuffer GLObj.vertBufferObjY,
    GLCall.glBufferData (numVerts * 8) (BufData.doubles ((List.range numVerts.toNat).map y)),
    GLCall.glBindBuffer GLObj.vertBufferObjCol,
    GLCall.glBufferData (numVerts * 4)
      (match color with
        | none => BufData.null
        | some c => BufData.ints ((List.range numVerts.toNat).map c)),
    GLCall.glUniform1i Program.shaderProgram Uniform.useCustom
      (if color.isSome then 1 else 0),
    GLCall.glClear,
    GLCall.glBindVertexArray GLObj.vertArrayObj,
    GLCall.glDrawArrays DrawMode.GL_POINTS 0 numVerts] ++
  (if plot.overlay then
    [GLCall.glUseProgram Program.overShaderProgram,
      GLCall.glBindVertexArray GLObj.overVAO,
      GLCall.glBindTexture GLObj.overTex,
      GLCall.glDrawArrays DrawMode.GL_TRIANGLES 0 6]
  else []) ++
  [GLCall.glfwSwapBuffers]

/-- The function `qdspUpdate` of `src/src/qdsp.c`; `newTime` is the value read
by `clock_gettime`.  `none`: the call never returns. -/
def qdspUpdate (plot : QDSPplot) (newTime : Timespec) (x y : Nat → ℚ)
    (color : Option (Nat → Int)) (numVerts : Int) (env : Env) : Option Outcome :=
  let lastTime := plot.lastTime
  let timeDiff := newTime.ms - lastTime.ms
  match pauseLoop env plot [] with
  | none => none
  | some (plot1, gl1, env1) =>
    if timeDiff ≥ 16 then
      let plot2 := { plot1 with lastTime := newTime }
      if plot2.windowShouldClose then
        some ⟨plot2, 0, gl1 ++ [GLCall.glfwTerminate], env1⟩
      else
        let polled := glfwPollEvents plot2 env1
        some ⟨polled.1, 1,
          gl1 ++ drawCalls plot2 x y color numVerts ++ polled.2.1, polled.2.2⟩
    else
      some ⟨plot1, 2, gl1, env1⟩

/-- The arguments of one call of `qdspUpdate`, with the clock reading taken. -/
structure Call where
  newTime : Timespec
  x : Nat → ℚ
  y : Nat → ℚ
  color : Option (Nat → Int)
  numVerts : Int

/-- A sequence of calls of `qdspUpdate` on one plot: the clock reading and the
returned value of each call that returns, in order; the sequence ends at a
call that never returns. -/
def run : List Call → QDSPplot → Env → List (Timespec × Int)
  | [], _, _ => []
  | c :: cs, plot, env =>
    match qdspUpdate plot c.newTime c.x c.y c.color c.numVerts env with
    | none => []
    | some o => (c.newTime, o.ret) :: run cs o.plot o.env

end V2

/-! ## Auxiliary definitions used in the statements -/

namespace V1

/-- The plot as `qdspInit` leaves it, with the clock at `t`. -/
def initPlot (t : Timespec) : QDSPplot :=
  ⟨false, -1, 1, -1, 1, t⟩

end V1

namespace V2

/-- The plot as `qdspInit` leaves it, with the clock at `t`. -/
def initPlot (t : Timespec) : QDSPplot :=
  ⟨false, false, false, t⟩

/-- A paused plot whose last frame was committed at time 0. -/
def pausedPlot : QDSPplot :=
  ⟨false, true, false, ⟨0, 0⟩⟩

/-- The program in use after a sequence of calls, `cur` being the one in use
before it. -/
def programAfter (cur : Option Program) (gl : List GLCall) : Option Program :=
  gl.foldl (fun c call =>
    match call with
    | GLCall.glUseProgram p => some p
    | _ => c) cur

/-- The stores into a uniform `useCustom` made by a sequence of calls, in order:
the program in use at the store (the one `glUniform1i` acts on), the program
whose uniform location is passed, and the value. -/
def useCustomStores : Option Program → List GLCall → List (Option Program × Program × Int)
  | _, [] => []
  | _, GLCall.glUseProgram p :: rest => useCustomStores (some p) rest
  | cur, GLCall.glUniform1i p Uniform.useCustom v :: rest =>
    (cur, p, v) :: useCustomStores cur rest
  | cur, _ :: rest => useCustomStores cur rest

end V2

/-! ## Counting drawn frames -/

namespace V1

end V1

/-! ## Events and the plot state -/

namespace V1

end V1

namespace V2

theorem pump_inv (P : QDSPplot → Prop) (hstep : ∀ q e, P q → P (dispatch q e).1)
    (b : List Event) :
    ∀ acc : QDSPplot × List GLCall, P acc.1 →
      P (b.foldl (fun acc e => ((dispatch acc.1 e).1, acc.2 ++ (dispatch acc.1 e).2)) acc).1 := by
  induction b with
  | nil => intro acc h; exact h
  | cons e l ih => intro acc h; exact ih _ (hstep _ _ h)

theorem pauseLoop_not_paused (env : Env) (plot : QDSPplot) (gl : List GLCall)
    (h : plot.paused = false) : pauseLoop env plot gl = some (plot, gl, env) := by
  cases env <;> simp [pauseLoop, h]

theorem qdspUpdate_some (plot : QDSPplot) (newTime : Timespec) (x y : Nat → ℚ)
    (color : Option (Nat → Int)) (numVerts : Int) (env : Env) (o : Outcome)
    (h : qdspUpdate plot newTime x y color numVerts env = some o) :
    ∃ q gl e, pauseLoop env plot [] = some (q, gl, e) := by
  cases hw : pauseLoop env plot [] with
  | none => simp [qdspUpdate, hw] at h
  | some r => exact ⟨r.1, r.2.1, r.2.2, rfl⟩

end V2

/-! ## The frame gate -/

namespace V2

theorem keyCallback_keeps_close (q : QDSPplot) (k c a m : Int)
    (h : q.windowShouldClose = true) : (keyCallback q k c a m).windowShouldClose = true := by
  unfold keyCallback
  split_ifs <;> simp [h]

theorem pump_close_mono (q : QDSPplot) (b : List Event) (h : q.windowShouldClose = true) :
    (pump q b).1.windowShouldClose = true := by
  apply pump_inv (fun r => r.windowShouldClose = true) _ b (q, []) h
  intro r e hr
  cases e with
  | key k c a m => exact keyCallback_keeps_close r k c a m hr
  | close => rfl
  | framebufferSize w h2 => exact hr

end V2

/-- C6: in every plot state, `keyCallback` on a press of the quit key or of the
escape key sets the close request and clears `paused` (nothing else changes), so
the pause loop of `qdspUpdate` started in that state exits at once; and no key
event handled by `keyCallback`, alone or in a batch of events, clears a close
request that is set. -/
theorem close_key_closes_and_unpauses (plot : V2.QDSPplot) (key code action mods : Int)
    (hk : key = GLFW_KEY_Q ∨ key = GLFW_KEY_ESCAPE) (ha : action = GLFW_PRESS) :
    V2.keyCallback plot key code action mods =
      { plot with windowShouldClose := true, paused := false } ∧
    (V2.keyCallback plot key code action mods).windowShouldClose = true ∧
    (V2.keyCallback plot key code action mods).paused = false ∧
    (∀ (env : Env) (gl : List GLCall),
      V2.pauseLoop env (V2.keyCallback plot key code action mods) gl =
        some (V2.keyCallback plot key code action mods, gl, env)) ∧
    (∀ (q : V2.QDSPplot) (k c a m : Int), q.windowShouldClose = true →
      (V2.keyCallback q k c a m).windowShouldClose = true) ∧
    (∀ (q : V2.QDSPplot) (b : List Event), q.windowShouldClose = true →
      (V2.pump q b).1.windowShouldClose = true) := by
  have e : V2.keyCallback plot key code action mods =
      { plot with windowShouldClose := true, paused := false } := by
    subst ha
    rcases hk with rfl | rfl <;>
      simp [V2.keyCallback, GLFW_KEY_Q, GLFW_KEY_ESCAPE, GLFW_KEY_P, GLFW_KEY_H, GLFW_PRESS]
  refine ⟨e, by rw [e], by rw [e], ?_, V2.keyCallback_keeps_close, V2.pump_close_mono⟩
  intro env gl
  exact V2.pauseLoop_not_paused env _ gl (by rw [e])

/-- A witness of C6: the quit key pressed on a paused plot. -/
theorem close_key_closes_and_unpauses_witness :
    V2.keyCallback V2.pausedPlot GLFW_KEY_Q 0 GLFW_PRESS 0 =
      { V2.pausedPlot with windowShouldClose := true, paused := false } :=
  (close_key_closes_and_unpauses V2.pausedPlot GLFW_KEY_Q 0 GLFW_PRESS 0 (Or.inl rfl) rfl).1

/-- C10: in every plot state, `keyCallback` on a press of the help key flips
`overlay` and changes nothing else; on a press of the pause key it flips
`paused` and changes nothing else; two presses in a row of the same of these
two keys give back the original state; an event that is not a press, or a
press of a key other than help, pause, quit and escape, changes nothing. -/
theorem keyCallback_toggles (plot : V2.QDSPplot) (key code action mods : Int) :
    (key = GLFW_KEY_H → action = GLFW_PRESS →
      V2.keyCallback plot key code action mods = { plot with overlay := !plot.overlay } ∧
      (V2.keyCallback plot key code action mods).paused = plot.paused ∧
      (V2.keyCallback plot key code action mods).windowShouldClose =
        plot.windowShouldClose) ∧
    (key = GLFW_KEY_P → action = GLFW_PRESS →
      V2.keyCallback plot key code action mods = { plot with paused := !plot.paused } ∧
      (V2.keyCallback plot key code action mods).overlay = plot.overlay ∧
      (V2.keyCallback plot key code action mods).windowShouldClose =
        plot.windowShouldClose) ∧
    (key = GLFW_KEY_H ∨ key = GLFW_KEY_P → action = GLFW_PRESS →
      ∀ code2 mods2 : Int,
        V2.keyCallback (V2.keyCallback plot key code action mods) key code2 action mods2 =
          plot) ∧
    (action ≠ GLFW_PRESS ∨
        (key ≠ GLFW_KEY_H ∧ key ≠ GLFW_KEY_P ∧ key ≠ GLFW_KEY_Q ∧ key ≠ GLFW_KEY_ESCAPE) →
      V2.keyCallback plot key code action mods = plot) := by
  refine ⟨?_, ?_, ?_, ?_⟩
  · rintro rfl rfl
    simp [V2.keyCallback, GLFW_KEY_Q, GLFW_KEY_ESCAPE, GLFW_KEY_P, GLFW_KEY_H, GLFW_PRESS]
  · rintro rfl rfl
    simp [V2.keyCallback, GLFW_KEY_Q, GLFW_KEY_ESCAPE, GLFW_KEY_P, GLFW_KEY_H, GLFW_PRESS]
  · rintro (rfl | rfl) rfl code2 mods2 <;>
      simp [V2.keyCallback, GLFW_KEY_Q, GLFW_KEY_ESCAPE, GLFW_KEY_P, GLFW_KEY_H, GLFW_PRESS]
  · rintro (h | ⟨h1, h2, h3, h4⟩)
    · simp [V2.keyCallback, h]
    · simp [V2.keyCallback, h1, h2, h3, h4]

/-- A witness of C10: the pause key pressed on a paused plot. -/
theorem keyCallback_toggles_witness :
    V2.keyCallback V2.pausedPlot GLFW_KEY_P 0 GLFW_PRESS 0 =
      { V2.pausedPlot with paused := !V2.pausedPlot.paused } :=
  ((keyCallback_toggles V2.pausedPlot GLFW_KEY_P 0 GLFW_PRESS 0).2.1 rfl rfl).1

/-! ## The value returned by an update -/

namespace V2

theorem useCustomStores_append (a : List GLCall) :
    ∀ (cur : Option Program) (b : List GLCall),
      useCustomStores cur (a ++ b) =
        useCustomStores cur a ++ useCustomStores (programAfter cur a) b := by
  induction a with
  | nil => intro cur b; rfl
  | cons c l ih =>
    intro cur b
    cases c with
    | glUniform1i p u v =>
      cases u <;> simp [useCustomStores, programAfter, ih]
    | _ => simp [useCustomStores, programAfter, ih]

theorem useCustomStores_dispatch (q : QDSPplot) (e : Event) (cur : Option Program) :
    useCustomStores cur (dispatch q e).2 = [] := by
  cases e <;> simp [dispatch, resizeCallback, useCustomStores]

theorem useCustomStores_fold (b : List Event) :
    ∀ (acc : QDSPplot × List GLCall) (cur : Option Program),
      useCustomStores cur
          (b.foldl (fun acc e => ((dispatch acc.1 e).1, acc.2 ++ (dispatch acc.1 e).2)) acc).2 =
        useCustomStores cur acc.2 := by
  induction b with
  | nil => intro acc cur; rfl
  | cons e l ih =>
    intro acc cur
    rw [List.foldl_cons, ih]
    simp [useCustomStores_append, useCustomStores_dispatch]

theorem useCustomStores_pump (q : QDSPplot) (b : List Event) (cur : Option Program) :
    useCustomStores cur (pump q b).2 = [] := by
  have := useCustomStores_fold b (q, []) cur
  simpa [pump, useCustomStores] using this

theorem useCustomStores_poll (q : QDSPplot) (env : Env) (cur : Option Program) :
    useCustomStores cur (glfwPollEvents q env).2.1 = [] := by
  cases env with
  | nil => rfl
  | cons b rest => exact useCustomStores_pump q b cur

theorem useCustomStores_pauseLoop (env : Env) :
    ∀ (plot : QDSPplot) (gl : List GLCall) (q : QDSPplot) (gl2 : List GLCall) (e : Env)
      (cur : Option Program),
      pauseLoop env plot gl = some (q, gl2, e) →
        useCustomStores cur gl2 = useCustomStores cur gl := by
  induction env with
  | nil =>
    intro plot gl q gl2 e cur h
    cases hp : plot.paused <;> simp [pauseLoop, hp] at h
    obtain ⟨-, rfl, -⟩ := h
    rfl
  | cons b rest ih =>
    intro plot gl q gl2 e cur h
    cases hp : plot.paused
    · simp [pauseLoop, hp] at h
      obtain ⟨-, rfl, -⟩ := h
      rfl
    · simp only [pauseLoop, hp, if_true] at h
      rw [ih _ _ _ _ _ cur h, useCustomStores_append, useCustomStores_pump, List.append_nil]

theorem useCustomStores_drawCalls (plot : QDSPplot) (x y : Nat → ℚ)
    (color : Option (Nat → Int)) (numVerts : Int) (cur : Option Program) (rest : List GLCall)
    (hrest : ∀ c : Option Program, useCustomStores c rest = []) :
    useCustomStores cur (drawCalls plot x y color numVerts ++ rest) =
      [(some Program.shaderProgram, Program.shaderProgram, if color.isSome then 1 else 0)] := by
  cases hov : plot.overlay <;>
    simp [drawCalls, useCustomStores, hov, hrest]

end V2

/-- C9: in the split-buffer variant, a call of `qdspUpdate` that draws a frame
(returns 1) stores into the uniform `useCustom` exactly once, with the point
program in use, the value 0 when the colour array is null and 1 when a colour
array is given; and the returned value, the plot state left behind and the
events taken are the same for every colour argument, null included. -/
theorem useCustom_flag (plot : V2.QDSPplot) (newTime : Timespec) (x y : Nat → ℚ)
    (color : Option (Nat → Int)) (numVerts : Int) (env : Env) (cur : Option Program) :
    (∀ o, V2.qdspUpdate plot newTime x y color numVerts env = some o → o.ret = 1 →
      V2.useCustomStores cur o.gl =
        [(some Program.shaderProgram, Program.shaderProgram,
          if color.isSome then 1 else 0)]) ∧
    (∀ o, V2.qdspUpdate plot newTime x y none numVerts env = some o → o.ret = 1 →
      V2.useCustomStores cur o.gl =
        [(some Program.shaderProgram, Program.shaderProgram, 0)]) ∧
    (∀ c o, V2.qdspUpdate plot newTime x y (some c) numVerts env = some o → o.ret = 1 →
      V2.useCustomStores cur o.gl =
        [(some Program.shaderProgram, Program.shaderProgram, 1)]) ∧
    (∀ color2 : Option (Nat → Int),
      (V2.qdspUpdate plot newTime x y color2 numVerts env).map
          (fun o => (o.ret, o.plot, o.env)) =
        (V2.qdspUpdate plot newTime x y color numVerts env).map
          (fun o => (o.ret, o.plot, o.env))) := by
  have main : ∀ (col : Option (Nat → Int)) (o : V2.Outcome),
      V2.qdspUpdate plot newTime x y col numVerts env = some o → o.ret = 1 →
        V2.useCustomStores cur o.gl =
          [(some Program.shaderProgram, Program.shaderProgram,
            if col.isSome then 1 else 0)] := by
    intro col o ho hr
    obtain ⟨q, gl, e, hw⟩ := V2.qdspUpdate_some _ _ _ _ _ _ _ _ ho
    have hgl := V2.useCustomStores_pauseLoop env plot [] q gl e cur hw
    by_cases hd : 16 ≤ newTime.ms - plot.lastTime.ms
    · cases hc : q.windowShouldClose
      · simp [V2.qdspUpdate, hw, hd, hc] at ho
        subst ho
        simp only [V2.useCustomStores_append, hgl]
        rw [← V2.useCustomStores_append,
          V2.useCustomStores_drawCalls _ _ _ _ _ _ _ (fun c => V2.useCustomStores_poll _ _ c)]
        rfl
      · simp [V2.qdspUpdate, hw, hd, hc] at ho
        subst ho
        simp at hr
    · simp [V2.qdspUpdate, hw, hd] at ho
      subst ho
      simp at hr
  refine ⟨main color, ?_, ?_, ?_⟩
  · intro o ho hr
    simpa using main none o ho hr
  · intro c o ho hr
    simpa using main (some c) o ho hr
  · intro color2
    cases hw : V2.pauseLoop env plot [] with
    | none => simp [V2.qdspUpdate, hw]
    | some r =>
      obtain ⟨q, gl, e⟩ := r
      by_cases hd : 16 ≤ newTime.ms - plot.lastTime.ms
      · cases hc : q.windowShouldClose <;> simp [V2.qdspUpdate, hw, hd, hc]
      · simp [V2.qdspUpdate, hw, hd]

/-- A witness of C9: a fresh plot updated 16 ms after its start without a colour
array. -/
theorem useCustom_flag_witness :
    ∃ o, V2.qdspUpdate (V2.initPlot ⟨0, 0⟩) ⟨0, 16000000⟩ (fun _ => 0) (fun _ => 0) none 2 [] =
        some o ∧ o.ret = 1 ∧
      V2.useCustomStores none o.gl =
        [(some Program.shaderProgram, Program.shaderProgram, 0)] := by
  have h : ∃ o, V2.qdspUpdate (V2.initPlot ⟨0, 0⟩) ⟨0, 16000000⟩ (fun _ => 0) (fun _ => 0)
      none 2 [] = some o ∧ o.ret = 1 := by
    norm_num [V2.qdspUpdate, V2.pauseLoop, V2.initPlot, Timespec.ms]
  obtain ⟨o, ho, hr⟩ := h
  exact ⟨o, ho, hr,
    (useCustom_flag (V2.initPlot ⟨0, 0⟩) ⟨0, 16000000⟩ (fun _ => 0) (fun _ => 0) none 2 []
      none).2.1 o ho hr⟩

/-! ## Pausing -/

namespace V2

end V2

end Qdsp
